import Mathlib

/-!
Shallow embedding of `android_open_accessory_bridge.py` (class
`AndroidOpenAccessoryBridge`): the AOA device detector, accessory
negotiator, and the length-prefixed framed channel (`write`, `read`,
`close`).  USB transport calls are modelled by explicit oracles/traces:
each bulk-endpoint call consumes one scripted outcome, and device
detection queries a per-round `find` oracle.  Python exceptions are
modelled with `Except`; Python truthiness of the mutable bridge fields
(`_device`, `_endpoint_out`, `_endpoint_in`) is a `Bool` per field.
-/

deriving instance DecidableEq for Except

namespace Aoab

/-- Python exceptions the bridge code can raise: `AssertionError` from a
failed `assert`, `IndexError` from indexing a too-short buffer, and
`usb.core.USBError` carrying an optional `errno` (110 is "Operation
timed out") and a message. -/
inductive PyError where
  | assertionError
  | indexError
  | usbError (errno : Option Int) (msg : String)
  deriving Repr, DecidableEq

/-- Outcome of one `endpoint.write(buf, timeout)` call on the bulk-OUT
endpoint: either the transport reports `bytesWrote` bytes transferred,
or it raises `usb.core.USBError` with the given `errno`. -/
inductive WriteOutcome where
  | ok (bytesWrote : Nat)
  | err (errno : Int)
  deriving Repr, DecidableEq

/-- Outcome of one `endpoint.read(n, timeout)` call on the bulk-IN
endpoint: either the transport delivers the requested bytes from the
pending byte stream of the endpoint, or it raises `usb.core.USBError` with
the given `errno`. -/
inductive ReadStep where
  | deliver
  | err (errno : Int)
  deriving Repr, DecidableEq

/-- Truthiness of the three mutable fields of the bridge object:
`_device`, `_endpoint_out`, `_endpoint_in`.  Each is `true` while the
field holds a live object and `false` once it is set to `None`. -/
structure BridgeState where
  device : Bool
  endpointOut : Bool
  endpointIn : Bool
  deriving Repr, DecidableEq

/-- A freshly constructed bridge: device handle and both endpoints set. -/
def openState : BridgeState := ⟨true, true, true⟩

/-- The state after a completed `close()`: all three fields are `None`. -/
def closedState : BridgeState := ⟨false, false, false⟩

/-- The two header bytes computed in `write`:
`[(size & 0x0000ff00) >> 8, (size & 0x000000ff)]`. -/
def sizeBytes (size : Nat) : List Nat :=
  [(size &&& 0xff00) >>> 8, size &&& 0x0000ff]

/-- The size recomputed by `read` from the two header bytes:
`(size_bytes[0] << 8) | size_bytes[1]`. -/
def decodeSize (b0 b1 : Nat) : Nat := (b0 <<< 8) ||| b1

/-- Result of running `write` or `close` against a trace of endpoint
outcomes: the Python result, the bytes that reached the wire, and the
unconsumed remainder of the trace. -/
structure WriteResult where
  result : Except PyError Unit
  wire : List Nat
  rest : List WriteOutcome
  deriving Repr, DecidableEq

/-- The `while True` header-send loop of `write`: on a `USBError` with
`errno == 110` it `continue`s; on any other `USBError` it re-raises; on
a normal return it asserts that exactly 2 bytes were written and
breaks.  A successful call with outcome `ok n` puts the first `n`
header bytes on the wire.  `none` means the loop is still running when
the scripted trace ends. -/
def headerLoop (sizeB : List Nat) :
    List WriteOutcome → Option (Except PyError Unit × List Nat × List WriteOutcome)
  | [] => none
  | .err e :: rest =>
      if e = 110 then headerLoop sizeB rest
      else some (.error (.usbError (some e) ("")), [], rest)
  | .ok n :: rest =>
      if n = 2 then some (.ok (), sizeB.take n, rest)
      else some (.error .assertionError, sizeB.take n, rest)

/-- Embedding of `AndroidOpenAccessoryBridge.write(data, timeout)`.
It first runs `assert(self._device and self._endpoint_out and data)`
(an empty `data` is falsy and fails the assert), then the header-send
loop, then a single payload send checked by
`assert(self._endpoint_out.write(data_bytes, timeout) == size)`.
A payload outcome `ok n` puts the first `n` payload bytes on the wire;
a payload `USBError` propagates (it is outside the retry loop). -/
def write (st : BridgeState) (data : List Nat) (trace : List WriteOutcome) :
    Option WriteResult :=
  if st.device ∧ st.endpointOut ∧ data ≠ [] then
    match headerLoop (sizeBytes data.length) trace with
    | none => none
    | some (.error e, w, rest) => some ⟨.error e, w, rest⟩
    | some (.ok _, w, rest) =>
      match rest with
      | [] => none
      | .err e :: rest2 => some ⟨.error (.usbError (some e) ("")), w, rest2⟩
      | .ok n :: rest2 =>
          if n = data.length then some ⟨.ok (), w ++ data.take n, rest2⟩
          else some ⟨.error .assertionError, w ++ data.take n, rest2⟩
  else some ⟨.error .assertionError, [], trace⟩

/-- Result of running `read`: the Python result (`ok none` is the Python `None` return), the bytes still pending on the IN endpoint, and the
unconsumed remainder of the read script. -/
structure ReadResult where
  result : Except PyError (Option (List Nat))
  stream : List Nat
  rest : List ReadStep
  deriving Repr, DecidableEq

/-- Embedding of `AndroidOpenAccessoryBridge.read(timeout)`.  After
`assert(self._device and self._endpoint_in)` it reads 2 bytes, combines
them big-endian, and reads that many payload bytes, all inside one
`try` whose `except` returns `None` exactly when `errno == 110` and
re-raises otherwise.  A header delivery of fewer than 2 bytes makes
`size_bytes[0]` or `size_bytes[1]` raise `IndexError` (not caught).
`none` means the script ended before the code finished. -/
def read (st : BridgeState) (stream : List Nat) (script : List ReadStep) :
    Option ReadResult :=
  if st.device ∧ st.endpointIn then
    match script with
    | [] => none
    | .err e :: s1 =>
        if e = 110 then some ⟨.ok none, stream, s1⟩
        else some ⟨.error (.usbError (some e) ("")), stream, s1⟩
    | .deliver :: s1 =>
        match stream, s1 with
        | _ :: _ :: _, [] => none
        | _ :: _ :: tail, .err e :: s2 =>
            if e = 110 then some ⟨.ok none, tail, s2⟩
            else some ⟨.error (.usbError (some e) ("")), tail, s2⟩
        | b0 :: b1 :: tail, .deliver :: s2 =>
            let size := decodeSize b0 b1
            some ⟨.ok (some (tail.take size)), tail.drop size, s2⟩
        | short, s1 => some ⟨.error .indexError, short.drop 2, s1⟩
  else some ⟨.error .assertionError, stream, script⟩

/-- Result of running `close`: the Python result, the final bridge
state, the bytes put on the wire by the terminator write, and whether
`usb.util.dispose_resources` ran. -/
structure CloseResult where
  result : Except PyError Unit
  state : BridgeState
  wire : List Nat
  disposed : Bool
  deriving Repr, DecidableEq

/-- Embedding of `AndroidOpenAccessoryBridge.close()`.  After
`assert(self._device and self._endpoint_out)` it writes the
zero-length terminator frame `[0, 0]` with no surrounding `try`; a
`USBError` there propagates before `dispose_resources` runs and before
any field is set to `None`.  On success it disposes the device and
clears all three fields; the byte count returned by the terminator
write is not checked. -/
def close (st : BridgeState) (o : WriteOutcome) : CloseResult :=
  if st.device ∧ st.endpointOut then
    match o with
    | .err e => ⟨.error (.usbError (some e) ("")), st, [], false⟩
    | .ok n => ⟨.ok (), closedState, [0, 0].take n, true⟩
  else ⟨.error .assertionError, st, [], false⟩

/-- Observable transport calls made by device detection and accessory
negotiation: the two `usb.core.find` queries of one detection round
(identified by a global round counter), `time.sleep`, the two kinds of
`ctrl_transfer`, `device.reset()`, and `usb.util.dispose_resources`. -/
inductive Action where
  | findUnconfigured (round : Nat)
  | findConfigured (round : Nat)
  | sleep (seconds : Nat)
  | ctrlIn (bmRequestType request wLength : Nat)
  | ctrlOut (bmRequestType request wIndex : Nat) (data : List Nat)
  | reset
  | dispose
  deriving Repr, DecidableEq

/-- Control transfers are requests 51, 52 and 53 in this code. -/
def Action.isControlTransfer : Action → Bool
  | .ctrlIn _ _ _ => true
  | .ctrlOut _ _ _ _ => true
  | _ => false

/-- Oracle for the USB transport as seen by `_detectDevice` and
`_configureAndOpenDevice`: `find r` is the pair of `usb.core.find`
results (unconfigured-id match, configured-id match) in round `r`,
devices being opaque `Nat` identifiers; `versionBytes` is the buffer
returned by `ctrl_transfer(0xc0, 51, data_or_wLength=2)`; `ctrlOutSent
i data` is the byte count reported by `ctrl_transfer(0x40, 52,
wIndex=i, data_or_wLength=data)`; `switchSent` is the byte count
reported by `ctrl_transfer(0x40, 53)`. -/
structure Transport where
  find : Nat → Option Nat × Option Nat
  versionBytes : List Nat
  ctrlOutSent : Nat → List Nat → Nat
  switchSent : Nat

/-- Embedding of `_detectDevice(attempts_left=5)`: query both product
ids, prefer the configured device, else the unconfigured one, else if
`attempts_left` is truthy sleep 1 second and recurse with
`attempts_left - 1`, else raise a `USBError` whose message is Device not connected.
Returns the Python result, the next free round number, and the trace
of transport calls. -/
def detectDevice (t : Transport) (round attemptsLeft : Nat) :
    Except PyError (Nat × Bool) × Nat × List Action :=
  let acts := [Action.findUnconfigured round, Action.findConfigured round]
  match (t.find round).2 with
  | some d => (.ok (d, true), round + 1, acts)
  | none =>
    match (t.find round).1 with
    | some d => (.ok (d, false), round + 1, acts)
    | none =>
      match attemptsLeft with
      | 0 => (.error (.usbError none ("Device not connected")), round + 1, acts)
      | k + 1 =>
        let r := detectDevice t (round + 1) k
        (r.1, r.2.1, acts ++ Action.sleep 1 :: r.2.2)

/-- Embedding of the `for i, data in enumerate(...)` loop sending the
six accessory descriptor fields: each iteration runs
`assert(device.ctrl_transfer(0x40, 52, wIndex=i, data_or_wLength=data)
== len(data))` and the first failing assert aborts the loop. -/
def sendAccessoryFields (t : Transport) :
    List (Nat × List Nat) → Except PyError Unit × List Action
  | [] => (.ok (), [])
  | (i, data) :: rest =>
    let act := Action.ctrlOut 0x40 52 i data
    if t.ctrlOutSent i data = data.length then
      let r := sendAccessoryFields t rest
      (r.1, act :: r.2)
    else (.error .assertionError, [act])

/-- Embedding of the `while attempts_left:` loop at the end of
`_configureAndOpenDevice`: call `_detectDevice()`, return the device
as soon as `is_configured`, otherwise sleep 1 second and consume one
of the 5 attempts; on exhaustion raise
a `USBError` whose message is Device not configured. -/
def pollConfigured (t : Transport) (round : Nat) :
    Nat → Except PyError Nat × Nat × List Action
  | 0 => (.error (.usbError none ("Device not configured")), round, [])
  | k + 1 =>
    let r := detectDevice t round 5
    match r.1 with
    | .error e => (.error e, r.2.1, r.2.2)
    | .ok (d, isConfigured) =>
      if isConfigured then (.ok d, r.2.1, r.2.2)
      else
        let r2 := pollConfigured t r.2.1 k
        (r2.1, r2.2.1, r.2.2 ++ Action.sleep 1 :: r2.2.2)

/-- Embedding of `_configureAndOpenDevice(manufacturer, model,
description, version, uri, serial)`.  One initial `_detectDevice()`;
if the device is not configured, validate the AOA protocol version via
`assert(len(buf) == 2 and (buf[0] | buf[1] << 8) == 2)` — the
short-circuiting `len(buf) == 2` conjunct is modelled by the
two-element list pattern, so a buffer of any other length fails the
assert without being indexed — then send the six
descriptor fields, command the mode switch via
`assert(device.ctrl_transfer(0x40, 53) == 0)` and dispose the
pre-switch device; if it is configured, `device.reset()` then
`time.sleep(1)`.  Either way, finish by polling for the configured
device.  Returns the Python result and the trace of transport calls. -/
def configureAndOpenDevice (t : Transport)
    (manufacturer model description version uri serial : List Nat) :
    Except PyError Nat × List Action :=
  let det := detectDevice t 0 5
  match det.1 with
  | .error e => (.error e, det.2.2)
  | .ok (_, isConfigured) =>
    if isConfigured then
      let p := pollConfigured t det.2.1 5
      (p.1, det.2.2 ++ [Action.reset, Action.sleep 1] ++ p.2.2)
    else
      let vAct := Action.ctrlIn 0xc0 51 2
      match t.versionBytes with
      | [b0, b1] =>
        if b0 ||| (b1 <<< 8) = 2 then
          let s := sendAccessoryFields t
            [(0, manufacturer), (1, model), (2, description),
             (3, version), (4, uri), (5, serial)]
          match s.1 with
          | .error e => (.error e, det.2.2 ++ vAct :: s.2)
          | .ok _ =>
            let swAct := Action.ctrlOut 0x40 53 0 []
            if t.switchSent = 0 then
              let p := pollConfigured t det.2.1 5
              (p.1, det.2.2 ++ vAct :: s.2 ++ [swAct, Action.dispose] ++ p.2.2)
            else (.error .assertionError, det.2.2 ++ vAct :: s.2 ++ [swAct])
        else (.error .assertionError, det.2.2 ++ [vAct])
      | _ => (.error .assertionError, det.2.2 ++ [vAct])

/-! ### Header encode/decode arithmetic -/

theorem testBit_255 (i : Nat) : Nat.testBit 255 i = decide (i < 8) := by
  have h : (255 : Nat) = 2 ^ 8 - 1 := by norm_num
  rw [h, Nat.testBit_two_pow_sub_one]

theorem testBit_65280 (i : Nat) :
    Nat.testBit 65280 i = (decide (8 ≤ i) && decide (i < 16)) := by
  have h : (65280 : Nat) = (2 ^ 8 - 1) <<< 8 := by
    rw [Nat.shiftLeft_eq]
    norm_num
  rw [h, Nat.testBit_shiftLeft, Nat.testBit_two_pow_sub_one]
  rcases Nat.lt_or_ge i 8 with h8 | h8
  · simp [Nat.not_le.mpr h8]
  · have h1 : i ≥ 8 := h8
    have h2 : i - 8 < 8 ↔ i < 16 := by omega
    simp [h1, h2, h8]

/-- The size recomputed by the reader from the two header bytes emitted
by the writer is the original `size` reduced modulo `2 ^ 16`. -/
theorem decode_sizeBytes (n : Nat) :
    decodeSize ((n &&& 0xff00) >>> 8) (n &&& 0xff) = n % 65536 := by
  unfold decodeSize
  apply Nat.eq_of_testBit_eq
  intro i
  have h65536 : (65536 : Nat) = 2 ^ 16 := by norm_num
  rw [h65536, Nat.testBit_mod_two_pow, Nat.testBit_or, Nat.testBit_shiftLeft,
    Nat.testBit_shiftRight, Nat.testBit_and, Nat.testBit_and, testBit_255,
    testBit_65280]
  rcases Nat.lt_or_ge i 8 with h8 | h8
  · have hge : ¬ i ≥ 8 := by omega
    have h16 : i < 16 := by omega
    simp [hge, h8, h16]
  · have heq : 8 + (i - 8) = i := by omega
    rcases Nat.lt_or_ge i 16 with h16 | h16
    · have hge : i ≥ 8 := h8
      have hn8 : ¬ i < 8 := by omega
      simp [hge, heq, h8, h16, hn8]
    · have hn16 : ¬ i < 16 := by omega
      have hn8 : ¬ i < 8 := by omega
      have hge : i ≥ 8 := h8
      simp [hge, heq, hn16, hn8]

/-- In the 16-bit range the header decodes back to the exact size. -/
theorem decode_sizeBytes_of_le {n : Nat} (h : n ≤ 65535) :
    decodeSize ((n &&& 0xff00) >>> 8) (n &&& 0xff) = n := by
  rw [decode_sizeBytes]
  omega

theorem headerLoop_skips_timeouts (sb : List Nat) (k : Nat)
    (tr : List WriteOutcome) :
    headerLoop sb (List.replicate k (.err 110) ++ tr) = headerLoop sb tr := by
  induction k with
  | zero => simp
  | succ n ih => simpa [List.replicate_succ, headerLoop] using ih

/-- A fully successful `write`: header accepted in one attempt with 2
bytes, payload accepted with exactly `len(data)` bytes. -/
theorem write_success_eval (data : List Nat) (h1 : data ≠ []) :
    write openState data [.ok 2, .ok data.length] =
      some ⟨.ok (), sizeBytes data.length ++ data, []⟩ := by
  simp [write, openState, h1, headerLoop, sizeBytes]

/-! ### C1: round-trip framing -/

/-- C1 counterexample: the claim includes the zero-length payload, but
a write of the empty payload fails the assert `self._device and self._endpoint_out and
data` (empty `data` is falsy) and emits nothing on the wire, even with
a fully cooperative transport. -/
theorem write_empty_payload_rejected :
    write openState [] [.ok 2, .ok 0] =
      some ⟨.error .assertionError, [], [.ok 2, .ok 0]⟩ := by
  rfl

/-- C1 (amended to nonempty payloads): for every payload with
`1 ≤ len ≤ 65535`, `write` puts the 2-byte big-endian length header
followed by exactly the payload bytes on the wire, and a peer read of
that wire data returns exactly the payload. -/
theorem roundtrip_framing (data : List Nat) (h1 : data ≠ [])
    (h2 : data.length ≤ 65535) :
    write openState data [.ok 2, .ok data.length] =
      some ⟨.ok (), sizeBytes data.length ++ data, []⟩ ∧
    read openState (sizeBytes data.length ++ data) [.deliver, .deliver] =
      some ⟨.ok (some data), [], []⟩ := by
  constructor
  · exact write_success_eval data h1
  · have hd := decode_sizeBytes_of_le h2
    simp [read, openState, sizeBytes, hd]

theorem roundtrip_framing_witness :
    write openState [104, 105] [.ok 2, .ok 2] =
      some ⟨.ok (), [0, 2, 104, 105], []⟩ ∧
    read openState [0, 2, 104, 105] [.deliver, .deliver] =
      some ⟨.ok (some [104, 105]), [], []⟩ := by
  simpa [sizeBytes] using roundtrip_framing [104, 105] (by decide) (by decide)

/-! ### C2: resource release on close -/

/-- C2 counterexample: when the terminator write raises a transport
error (here errno 110), `close` propagates the `USBError` without
running `dispose_resources` and without invalidating any field — the
bridge state is unchanged, contradicting the claim that the
DeviceHandle is released and the EndpointPair invalidated even then. -/
theorem close_leaks_on_terminator_error :
    (close openState (.err 110)).result = .error (.usbError (some 110) ("")) ∧
    (close openState (.err 110)).disposed = false ∧
    (close openState (.err 110)).state = openState := by
  decide

/-- C2 (amended): `close` writes the zero-length terminator frame
`[0, 0]` and, when that write returns, disposes the device and
invalidates all three fields; but when the terminator write raises a
transport error, the error propagates with the device NOT disposed and
the endpoints NOT invalidated. -/
theorem close_release_behavior :
    (∀ n, close openState (.ok n) = ⟨.ok (), closedState, [0, 0].take n, true⟩) ∧
    (∀ e, close openState (.err e) =
      ⟨.error (.usbError (some e) ("")), openState, [], false⟩) := by
  constructor
  · intro n
    simp [close, openState]
  · intro e
    simp [close, openState]

/-! ### C3: oversized payloads -/

/-- C3 counterexample: a payload of 65536 bytes is not rejected —
`write` succeeds and emits the masked header `[0, 0]`, which decodes
to 0, not to the payload length. -/
theorem oversize_write_not_rejected :
    ∃ data : List Nat, 65535 < data.length ∧
      write openState data [.ok 2, .ok data.length] =
        some ⟨.ok (), 0 :: 0 :: data, []⟩ ∧
      decodeSize 0 0 ≠ data.length := by
  have hlen : (List.replicate 65536 (0 : Nat)).length = 65536 :=
    List.length_replicate 65536 0
  have hne : List.replicate 65536 (0 : Nat) ≠ [] := by
    intro hc
    rw [hc] at hlen
    exact absurd hlen (by decide)
  have hsb : sizeBytes 65536 = [0, 0] := by decide
  refine ⟨List.replicate 65536 0, by rw [hlen]; omega, ?_, ?_⟩
  · rw [write_success_eval _ hne, hlen, hsb]
    simp only [List.cons_append, List.nil_append]
  · rw [hlen]
    decide

/-- C3 (amended): `write` does not reject oversized payloads: for every
payload longer than 65535 bytes it emits a header whose two bytes
encode `len % 65536`, a length different from the true one, and the
transfer succeeds. -/
theorem oversize_write_masks_header (data : List Nat)
    (h : 65535 < data.length) :
    write openState data [.ok 2, .ok data.length] =
      some ⟨.ok (), sizeBytes data.length ++ data, []⟩ ∧
    decodeSize ((data.length &&& 0xff00) >>> 8) (data.length &&& 0xff) =
      data.length % 65536 ∧
    data.length % 65536 ≠ data.length := by
  have h1 : data ≠ [] := by
    intro hc
    rw [hc] at h
    simp at h
  refine ⟨write_success_eval data h1, decode_sizeBytes data.length, ?_⟩
  have hm : data.length % 65536 < 65536 := Nat.mod_lt _ (by norm_num)
  omega

theorem oversize_write_masks_header_witness :
    65535 < (List.replicate 65536 (0 : Nat)).length ∧
    (write openState (List.replicate 65536 (0 : Nat))
        [.ok 2, .ok (List.replicate 65536 (0 : Nat)).length] =
      some ⟨.ok (), sizeBytes (List.replicate 65536 (0 : Nat)).length ++
        List.replicate 65536 (0 : Nat), []⟩ ∧
    decodeSize (((List.replicate 65536 (0 : Nat)).length &&& 0xff00) >>> 8)
        ((List.replicate 65536 (0 : Nat)).length &&& 0xff) =
      (List.replicate 65536 (0 : Nat)).length % 65536 ∧
    (List.replicate 65536 (0 : Nat)).length % 65536 ≠
      (List.replicate 65536 (0 : Nat)).length) := by
  have h : 65535 < (List.replicate 65536 (0 : Nat)).length := by
    rw [List.length_replicate]
    omega
  exact ⟨h, oversize_write_masks_header _ h⟩

/-! ### C8: ShortWrite fatal, header timeouts retried -/

/-- C8: once the 2-byte header send has succeeded, a payload transfer
reporting fewer bytes than the payload length fails the assert (the
called `ShortWrite` in the spec) with no retry — the remaining trace is returned
unconsumed; by contrast, any number of errno-110 timeouts on the
header send are absorbed by the `while True` loop, which then
proceeds normally (and after only timeouts the loop is still running,
having raised nothing). -/
theorem short_write_fatal_header_timeout_retried (data : List Nat)
    (h1 : data ≠ []) :
    (∀ r rest, r < data.length →
      write openState data (.ok 2 :: .ok r :: rest) =
        some ⟨.error .assertionError,
          sizeBytes data.length ++ data.take r, rest⟩) ∧
    (∀ k rest, write openState data
        (List.replicate k (.err 110) ++ .ok 2 :: .ok data.length :: rest) =
        some ⟨.ok (), sizeBytes data.length ++ data, rest⟩) ∧
    (∀ k, write openState data (List.replicate k (.err 110)) = none) := by
  refine ⟨?_, ?_, ?_⟩
  · intro r rest hr
    have hne : r ≠ data.length := Nat.ne_of_lt hr
    simp [write, openState, h1, headerLoop, sizeBytes, hne]
  · intro k rest
    simp [write, openState, h1, headerLoop_skips_timeouts, headerLoop,
      sizeBytes]
  · intro k
    have h := headerLoop_skips_timeouts (sizeBytes data.length) k []
    simp only [List.append_nil] at h
    simp [write, openState, h1, h, headerLoop]

theorem short_write_fatal_header_timeout_retried_witness :
    write openState [1] [.ok 2, .ok 0] =
      some ⟨.error .assertionError, [0, 1], []⟩ ∧
    write openState [1] [.err 110, .err 110, .ok 2, .ok 1] =
      some ⟨.ok (), [0, 1, 1], []⟩ ∧
    write openState [1] [.err 110, .err 110, .err 110] = none := by
  have h := short_write_fatal_header_timeout_retried [1] (by decide)
  refine ⟨?_, ?_, ?_⟩
  · simpa [sizeBytes] using h.1 0 [] (by decide)
  · simpa [sizeBytes] using h.2.1 2 []
  · simpa using h.2.2 3

/-! ### C9: use after close -/

/-- C9: a completed `close` leaves all three fields `None`, and on such
a bridge every `write`, `read` and further `close` fails the leading
assert before touching the transport: no byte reaches the wire, no
trace element is consumed, nothing is disposed. -/
theorem use_after_close_fails :
    (∀ n, (close openState (.ok n)).state = closedState) ∧
    (∀ data trace, write closedState data trace =
      some ⟨.error .assertionError, [], trace⟩) ∧
    (∀ stream script, read closedState stream script =
      some ⟨.error .assertionError, stream, script⟩) ∧
    (∀ o, close closedState o =
      ⟨.error .assertionError, closedState, [], false⟩) := by
  refine ⟨?_, ?_, ?_, ?_⟩
  · intro n
    simp [close, openState]
  · intro data trace
    simp [write, closedState]
  · intro stream script
    simp [read, closedState]
  · intro o
    simp [close, closedState]

/-! ### C10: payload-read timeout is silent -/

/-- C10: a timeout (errno 110) during the payload read — after the
2-byte header has already been consumed from the stream — makes `read`
return `None` with exactly the same visible result as a timeout on the
header read: the one `except` clause covers both reads, so the caller
cannot distinguish a lost frame from "no data yet". -/
theorem payload_timeout_indistinguishable :
    (∀ b0 b1 tail s, read openState (b0 :: b1 :: tail)
        (.deliver :: .err 110 :: s) = some ⟨.ok none, tail, s⟩) ∧
    (∀ stream s, read openState stream (.err 110 :: s) =
      some ⟨.ok none, stream, s⟩) ∧
    (∀ b0 b1 tail s stream s2,
      (read openState (b0 :: b1 :: tail) (.deliver :: .err 110 :: s)).map
          (fun x => x.result) =
      (read openState stream (.err 110 :: s2)).map (fun x => x.result)) := by
  refine ⟨?_, ?_, ?_⟩
  · intro b0 b1 tail s
    simp [read, openState]
  · intro stream s
    simp [read, openState]
  · intro b0 b1 tail s stream s2
    simp [read, openState]

/-! ### C5: detector tie-break -/

/-- C5: whenever the round in which `_detectDevice` queries the bus
enumerates both an unconfigured and a configured device, the configured
one is returned with `is_configured = True`, for any attempt budget. -/
theorem detect_prefers_configured (t : Transport) (round a du dc : Nat)
    (h : t.find round = (some du, some dc)) :
    (detectDevice t round a).1 = .ok (dc, true) := by
  cases a <;> simp [detectDevice, h]

theorem detect_prefers_configured_witness :
    (detectDevice ⟨fun _ => (some 4, some 9), [], fun _ _ => 0, 0⟩ 0 5).1 =
      .ok (9, true) :=
  detect_prefers_configured _ 0 5 4 9 rfl

/-! ### C6: detector termination on exhaustion -/

/-- C6: on a transport where no matching device is ever enumerable,
`_detectDevice` with attempt budget `a` (default 5) fails with
a `USBError` with message Device not connected after exactly `a` one-second sleeps
and `a + 1` query rounds (two `usb.core.find` calls each) — a finite
trace, so it terminates rather than blocking or retrying forever. -/
theorem detect_exhausts_bounded (t : Transport)
    (h : ∀ r, t.find r = (none, none)) :
    ∀ a round,
      (detectDevice t round a).1 =
        .error (.usbError none ("Device not connected")) ∧
      (detectDevice t round a).2.2.countP
        (fun x => decide (x = Action.sleep 1)) = a ∧
      (detectDevice t round a).2.2.length = 2 * (a + 1) + a := by
  intro a
  induction a with
  | zero =>
      intro round
      simp [detectDevice, h]
  | succ k ih =>
      intro round
      obtain ⟨ih1, ih2, ih3⟩ := ih (round + 1)
      refine ⟨?_, ?_, ?_⟩
      · simp [detectDevice, h, ih1]
      · simp [detectDevice, h, List.countP_cons, ih2]
      · simp [detectDevice, h, ih3]
        omega

theorem detect_exhausts_bounded_witness :
    (detectDevice ⟨fun _ => (none, none), [], fun _ _ => 0, 0⟩ 0 5).1 =
      .error (.usbError none ("Device not connected")) ∧
    (detectDevice ⟨fun _ => (none, none), [], fun _ _ => 0, 0⟩ 0 5).2.2.countP
      (fun x => decide (x = Action.sleep 1)) = 5 ∧
    (detectDevice ⟨fun _ => (none, none), [], fun _ _ => 0, 0⟩ 0 5).2.2.length =
      2 * (5 + 1) + 5 :=
  detect_exhausts_bounded _ (fun _ => rfl) 5 0

/-! ### C4: protocol version gate -/

theorem sendAccessoryFields_head (t : Transport) (i : Nat) (d : List Nat)
    (rest : List (Nat × List Nat)) :
    ∃ tl, (sendAccessoryFields t ((i, d) :: rest)).2 =
      Action.ctrlOut 0x40 52 i d :: tl := by
  by_cases hc : t.ctrlOutSent i d = d.length <;>
    simp [sendAccessoryFields, hc]

/-- C4: with an unconfigured device detected and a 2-byte version
buffer read by control request 51, the negotiator fails (assert, the
called `ProtocolVersionMismatch` in the spec) without any descriptor transfer
whenever the little-endian value `buf[0] | buf[1] << 8` differs
from 2, and proceeds to the first descriptor-field control transfer
exactly when the value is 2. -/
theorem version_gate (t : Transport) (du b0 b1 : Nat)
    (m mo de ve ur se : List Nat)
    (hfind : t.find 0 = (some du, none))
    (hbuf : t.versionBytes = [b0, b1]) :
    ((b0 ||| (b1 <<< 8)) ≠ 2 →
      configureAndOpenDevice t m mo de ve ur se =
        (.error .assertionError,
         [.findUnconfigured 0, .findConfigured 0, .ctrlIn 0xc0 51 2])) ∧
    ((b0 ||| (b1 <<< 8)) = 2 →
      ∃ rest, (configureAndOpenDevice t m mo de ve ur se).2 =
        .findUnconfigured 0 :: .findConfigured 0 :: .ctrlIn 0xc0 51 2 ::
          .ctrlOut 0x40 52 0 m :: rest) := by
  have hdet : detectDevice t 0 5 =
      (.ok (du, false), 1, [.findUnconfigured 0, .findConfigured 0]) := by
    simp [detectDevice, hfind]
  constructor
  · intro hv
    simp [configureAndOpenDevice, hdet, hbuf, hv]
  · intro hv
    obtain ⟨tl, htl⟩ := sendAccessoryFields_head t 0 m
      [(1, mo), (2, de), (3, ve), (4, ur), (5, se)]
    rcases hres : (sendAccessoryFields t
        [(0, m), (1, mo), (2, de), (3, ve), (4, ur), (5, se)]).1 with e | u
    · exact ⟨tl, by
        simp [configureAndOpenDevice, hdet, hbuf, hv, hres, htl]⟩
    · by_cases hsw : t.switchSent = 0
      · refine ⟨tl ++ .ctrlOut 0x40 53 0 [] :: .dispose ::
          (pollConfigured t 1 5).2.2, ?_⟩
        simp [configureAndOpenDevice, hdet, hbuf, hv, hres, htl, hsw]
      · refine ⟨tl ++ [.ctrlOut 0x40 53 0 []], ?_⟩
        simp [configureAndOpenDevice, hdet, hbuf, hv, hres, htl, hsw]

theorem version_gate_witness :
    (Transport.find ⟨fun r => if r = 0 then (some 4, none) else (none, some 9),
        [1, 0], fun _ d => d.length, 0⟩ 0 = (some 4, none)) ∧
    Transport.versionBytes ⟨fun r => if r = 0 then (some 4, none)
        else (none, some 9), [1, 0], fun _ d => d.length, 0⟩ = [1, 0] ∧
    configureAndOpenDevice ⟨fun r => if r = 0 then (some 4, none)
        else (none, some 9), [1, 0], fun _ d => d.length, 0⟩
        [7] [] [] [] [] [] =
      (.error .assertionError,
       [.findUnconfigured 0, .findConfigured 0, .ctrlIn 0xc0 51 2]) := by
  refine ⟨rfl, rfl, ?_⟩
  exact (version_gate _ 4 1 0 [7] [] [] [] [] [] rfl rfl).1 (by decide)

/-! ### C7: already-configured fast path -/

theorem detect_no_control (t : Transport) :
    ∀ a round x, x ∈ (detectDevice t round a).2.2 →
      x.isControlTransfer = false := by
  intro a
  induction a with
  | zero =>
      intro round x hx
      rcases hf : t.find round with ⟨u, c⟩
      have heq : (detectDevice t round 0).2.2 =
          [.findUnconfigured round, .findConfigured round] := by
        cases c <;> cases u <;> simp [detectDevice, hf]
      rw [heq] at hx
      simp only [List.mem_cons, List.not_mem_nil, or_false] at hx
      rcases hx with h | h <;> subst h <;> rfl
  | succ k ih =>
      intro round x hx
      rcases hf : t.find round with ⟨u, c⟩
      rcases c with _ | d
      · rcases u with _ | d
        · have heq : (detectDevice t round (k + 1)).2.2 =
              [Action.findUnconfigured round, Action.findConfigured round] ++
                Action.sleep 1 :: (detectDevice t (round + 1) k).2.2 := by
            simp [detectDevice, hf]
          rw [heq] at hx
          simp only [List.cons_append, List.nil_append, List.mem_cons] at hx
          rcases hx with h | h | h | h
          · subst h; rfl
          · subst h; rfl
          · subst h; rfl
          · exact ih (round + 1) x h
        · have heq : (detectDevice t round (k + 1)).2.2 =
              [Action.findUnconfigured round, Action.findConfigured round] := by
            simp [detectDevice, hf]
          rw [heq] at hx
          simp only [List.mem_cons, List.not_mem_nil, or_false] at hx
          rcases hx with h | h <;> subst h <;> rfl
      · have heq : (detectDevice t round (k + 1)).2.2 =
            [Action.findUnconfigured round, Action.findConfigured round] := by
          simp [detectDevice, hf]
        rw [heq] at hx
        simp only [List.mem_cons, List.not_mem_nil, or_false] at hx
        rcases hx with h | h <;> subst h <;> rfl

theorem poll_no_control (t : Transport) :
    ∀ k round x, x ∈ (pollConfigured t round k).2.2 →
      x.isControlTransfer = false := by
  intro k
  induction k with
  | zero =>
      intro round x hx
      simp [pollConfigured] at hx
  | succ n ih =>
      intro round x hx
      rcases hr : (detectDevice t round 5).1 with e | d
      · have heq : (pollConfigured t round (n + 1)).2.2 =
            (detectDevice t round 5).2.2 := by
          simp [pollConfigured, hr]
        rw [heq] at hx
        exact detect_no_control t 5 round x hx
      · obtain ⟨dev, isConf⟩ := d
        cases isConf
        · have heq : (pollConfigured t round (n + 1)).2.2 =
              (detectDevice t round 5).2.2 ++ Action.sleep 1 ::
                (pollConfigured t (detectDevice t round 5).2.1 n).2.2 := by
            simp [pollConfigured, hr]
          rw [heq] at hx
          simp only [List.mem_append, List.mem_cons] at hx
          rcases hx with h | h | h
          · exact detect_no_control t 5 round x h
          · subst h; rfl
          · exact ih _ x h
        · have heq : (pollConfigured t round (n + 1)).2.2 =
              (detectDevice t round 5).2.2 := by
            simp [pollConfigured, hr]
          rw [heq] at hx
          exact detect_no_control t 5 round x hx

/-- C7: when the initial detection finds the configured device, the
whole transport trace of the negotiator is the two initial find calls, a
device reset, a one-second sleep, and the re-poll trace — and no
action anywhere in it is a control transfer (no version query, no
descriptor send, no mode-switch command). -/
theorem configured_fast_path (t : Transport) (u : Option Nat) (dc : Nat)
    (m mo de ve ur se : List Nat) (h : t.find 0 = (u, some dc)) :
    (configureAndOpenDevice t m mo de ve ur se).2 =
      [.findUnconfigured 0, .findConfigured 0, .reset, .sleep 1] ++
        (pollConfigured t 1 5).2.2 ∧
    ∀ x ∈ (configureAndOpenDevice t m mo de ve ur se).2,
      x.isControlTransfer = false := by
  have hdet : detectDevice t 0 5 =
      (.ok (dc, true), 1, [.findUnconfigured 0, .findConfigured 0]) := by
    simp [detectDevice, h]
  have htr : (configureAndOpenDevice t m mo de ve ur se).2 =
      [.findUnconfigured 0, .findConfigured 0, .reset, .sleep 1] ++
        (pollConfigured t 1 5).2.2 := by
    simp [configureAndOpenDevice, hdet]
  refine ⟨htr, ?_⟩
  intro x hx
  rw [htr] at hx
  simp only [List.cons_append, List.nil_append, List.mem_cons] at hx
  rcases hx with h1 | h1 | h1 | h1 | h1
  · subst h1; rfl
  · subst h1; rfl
  · subst h1; rfl
  · subst h1; rfl
  · exact poll_no_control t 5 1 x h1

theorem configured_fast_path_witness :
    (Transport.find ⟨fun _ => (none, some 9), [], fun _ _ => 0, 0⟩ 0 =
      (none, some 9)) ∧
    (configureAndOpenDevice ⟨fun _ => (none, some 9), [], fun _ _ => 0, 0⟩
        [] [] [] [] [] []).2 =
      [.findUnconfigured 0, .findConfigured 0, .reset, .sleep 1] ++
        (pollConfigured ⟨fun _ => (none, some 9), [], fun _ _ => 0, 0⟩
          1 5).2.2 ∧
    ∀ x ∈ (configureAndOpenDevice ⟨fun _ => (none, some 9), [],
        fun _ _ => 0, 0⟩ [] [] [] [] [] []).2,
      x.isControlTransfer = false := by
  refine ⟨rfl, ?_, ?_⟩
  · exact (configured_fast_path _ none 9 [] [] [] [] [] [] rfl).1
  · exact (configured_fast_path _ none 9 [] [] [] [] [] [] rfl).2

end Aoab
